import Mathlib

/-!
Shallow embedding of the report-dashboard engine of `reportes-dashboard.js`.

The repository ships two near-duplicate variants of the engine:
* `staticfiles/js/reportes-dashboard.js` (the richer variant: response cache,
  request coalescing, 30-second timeout, lazy card loading) — called the
  *staticfiles variant* below; its definitions carry no prefix.
* `static/js/reportes-dashboard.js` (the simpler eager variant) — called the
  *static variant* below; its definitions carry a `static` prefix.

Filter values that reach the serialization step are JavaScript strings,
`null`, or `undefined` (input `.value ?? ""`, default filters, global filter
strings), so the value type `JVal` covers exactly those.  JavaScript objects
used as filter maps are modelled as insertion-ordered association lists with
JS assignment semantics (overwriting a key keeps its original position).
Percent-encoding performed by `URLSearchParams.toString` is not modelled;
all serialization claims are stated over the ordered parameter list that
feeds it.
-/

namespace Reportes

/-- A JavaScript filter value as it reaches fetchReport's serialization:
a string, `null`, or `undefined`. -/
inductive JVal where
  | null
  | undef
  | str (s : String)
deriving DecidableEq, Repr

/-- JS truthiness of a filter value, as tested by `if (value)` in the
staticfiles variant: the empty string, `null` and `undefined` are falsy. -/
def JVal.truthy : JVal → Bool
  | .str s => !(s == "")
  | .null => false
  | .undef => false

/-- The explicit drop test of the static variant:
`value === null || value === undefined || value === ""`. -/
def isEmptyVal : JVal → Bool
  | .null => true
  | .undef => true
  | .str s => s == ""

/-- String coercion applied by `URLSearchParams.append`/`set` to a value
that survived the drop test (only non-empty strings ever reach it). -/
def jvalToString : JVal → String
  | .null => "null"
  | .undef => "undefined"
  | .str s => s

/-- JS object property assignment `obj[k] = v` on an insertion-ordered
association list: an existing key keeps its position, a fresh key is
appended at the end. -/
def mapSet {α : Type} : List (String × α) → String → α → List (String × α)
  | [], k, v => [(k, v)]
  | (k', v') :: rest, k, v =>
      if k' == k then (k, v) :: rest else (k', v') :: mapSet rest k v

/-- JS property read `obj[k]`. -/
def mapLookup {α : Type} (m : List (String × α)) (k : String) : Option α :=
  (m.find? (fun p => p.1 == k)).map (·.2)

/-- `Map.prototype.delete` / removing a key. -/
def mapErase {α : Type} (m : List (String × α)) (k : String) : List (String × α) :=
  m.filter (fun p => !(p.1 == k))

/-- `Object.assign(target, source)`: source entries assigned left to right. -/
def objAssign (target source : List (String × JVal)) : List (String × JVal) :=
  source.foldl (fun acc p => mapSet acc p.1 p.2) target

/-- JS `a || b` on an optional string (`config.paramMap?.start || "start"`
and `map[key] || key`): a missing or empty mapped name falls back. -/
def jsOr (o : Option String) (d : String) : String :=
  match o with
  | some s => if s == "" then d else s
  | none => d

/-- Escaping applied by `JSON.stringify` inside a JSON string literal
(quote and backslash; control characters do not occur in the filter data). -/
def jsonEscape (s : String) : String :=
  String.join (s.data.map (fun c =>
    if c == '"' then "\\\"" else if c == '\\' then "\\\\" else String.singleton c))

/-- `JSON.stringify` of one property value; `undefined`-valued properties
are skipped entirely. -/
def jsonValStr : JVal → Option String
  | .undef => none
  | .null => some "null"
  | .str s => some ("\"" ++ jsonEscape s ++ "\"")

/-- `JSON.stringify` of a filter object: properties in insertion order. -/
def jsonStringify (o : List (String × JVal)) : String :=
  "\x7b" ++ String.intercalate ","
      (o.filterMap (fun p =>
        (jsonValStr p.2).map (fun v => "\"" ++ jsonEscape p.1 ++ "\":" ++ v)))
    ++ "\x7d"

/-- The dashboard's shared date-range state `this.globalFilters`,
initialised to `{ start: "", end: "" }`. -/
structure GlobalFilters where
  start : String
  «end» : String
deriving DecidableEq, Repr

/-- `JSON.stringify(this.globalFilters)`: both properties are always
present, in the insertion order `start`, `end`. -/
def jsonStringifyGlobal (g : GlobalFilters) : String :=
  jsonStringify [("start", JVal.str g.start), ("end", JVal.str g.«end»)]

/-- The `options` argument of `fetchReport` / `generateCacheKey`:
`options.filters` (absent for card loads) and the JS truthiness of
`options.useGlobalFilters` (absent means falsy). -/
structure FetchOptions where
  filters : Option (List (String × JVal))
  useGlobalFilters : Bool
deriving DecidableEq, Repr

/-- `ReportDashboard.generateCacheKey` of the staticfiles variant:
`type-useGlobal-JSON.stringify(options.filters || {})-JSON.stringify(globalFilters)`. -/
def generateCacheKey (type : String) (options : FetchOptions)
    (globalFilters : GlobalFilters) : String :=
  let filters := options.filters.getD []
  let useGlobal := if options.useGlobalFilters then "global" else "custom"
  let filterStr := jsonStringify filters
  let globalStr := jsonStringifyGlobal globalFilters
  type ++ "-" ++ useGlobal ++ "-" ++ filterStr ++ "-" ++ globalStr

/-- A JSON payload value (the parsed response body and its parts). -/
inductive Json where
  | jnull
  | jundef
  | jbool (b : Bool)
  | jnum (n : Int)
  | jstr (s : String)
  | jarr (elems : List Json)
  | jobj (fields : List (String × Json))

/-- Optional-chaining property read `data?.k`: an object yields the field
(`undefined` when missing); any non-object yields `undefined`. -/
def jsonGet (j : Json) (k : String) : Json :=
  match j with
  | .jobj fields => ((fields.find? (fun p => p.1 == k)).map (·.2)).getD .jundef
  | _ => .jundef

mutual
/-- JS `String(value)` coercion on a payload value, as applied by
`escapeHtml`; arrays stringify by comma-joining their elements with
`null`/`undefined` elements becoming empty, objects as `[object Object]`. -/
def jsToString : Json → String
  | .jnull => "null"
  | .jundef => "undefined"
  | .jbool b => cond b "true" "false"
  | .jnum n => toString n
  | .jstr s => s
  | .jarr xs => String.intercalate "," (jsArrayParts xs)
  | .jobj _ => "[object Object]"

/-- Element strings of `Array.prototype.join(",")`. -/
def jsArrayParts : List Json → List String
  | [] => []
  | e :: es =>
      (match e with
       | Json.jnull => ""
       | Json.jundef => ""
       | e' => jsToString e') :: jsArrayParts es
end

/-- One global single-character regex replacement, as used by `escapeHtml`'s
`.replace(/c/g, r)` chain. -/
def replaceChar (s : String) (c : Char) (r : String) : String :=
  String.join (s.data.map (fun ch => if ch == c then r else String.singleton ch))

/-- `escapeHtml` of both variants: `null`/`undefined` become an em-dash,
anything else is coerced to a string and the five HTML metacharacters are
replaced in source order (`&`, `<`, `>`, `"`, `'`). -/
def escapeHtml (value : Json) : String :=
  match value with
  | .jnull => "—"
  | .jundef => "—"
  | v =>
      let s0 := jsToString v
      let s1 := replaceChar s0 '&' "&amp;"
      let s2 := replaceChar s1 '<' "&lt;"
      let s3 := replaceChar s2 '>' "&gt;"
      let s4 := replaceChar s3 '"' "&quot;"
      replaceChar s4 (Char.ofNat 39) "&#39;"

/-- A `REPORT_CONFIG` entry (one report descriptor).  Fields not touched by
any claim (`summaryFields`) are omitted from the embedding. -/
structure ReportConfig where
  endpoint : String
  supportsRange : Bool
  paramMap : List (String × String)
  defaultFilters : List (String × JVal)
  cardValue : Json → String
  rowsExtractor : Json → List Json
  renderRow : Json → String
  emptyMessage : String

/-- The `"total-sales"` descriptor of the staticfiles variant (the functions
are transcribed from its `REPORT_CONFIG["total-sales"]`). -/
def totalSales : ReportConfig where
  endpoint := "/app/reportes/ventas-totales/"
  supportsRange := true
  paramMap := [("start", "fecha_inicio"), ("end", "fecha_fin")]
  defaultFilters := []
  cardValue := fun data =>
    match jsonGet data "total_sales_display" with
    | .jnull => "—"
    | .jundef => "—"
    | v => jsToString v
  rowsExtractor := fun data =>
    match jsonGet data "rows" with
    | .jarr rows => rows
    | _ => []
  renderRow := fun row =>
    "\n                <tr>\n                    <td>"
      ++ escapeHtml (jsonGet row "factura")
      ++ "</td>\n                    <td>"
      ++ escapeHtml (jsonGet row "cliente")
      ++ "</td>\n                    <td>"
      ++ escapeHtml (jsonGet row "fecha_display")
      ++ "</td>\n                    <td>"
      ++ escapeHtml (jsonGet row "subtotal_display")
      ++ "</td>\n                    <td>"
      ++ escapeHtml (jsonGet row "itbis_display")
      ++ "</td>\n                    <td>"
      ++ escapeHtml (jsonGet row "total_display")
      ++ "</td>\n                    <td>"
      ++ escapeHtml (jsonGet row "costo_display")
      ++ "</td>\n                    <td>"
      ++ escapeHtml (jsonGet row "ganancia_display")
      ++ "</td>\n                    <td>"
      ++ escapeHtml (jsonGet row "metodo_pago")
      ++ "</td>\n                    <td>"
      ++ escapeHtml (jsonGet row "descuento_display")
      ++ "</td>\n                    <td>"
      ++ escapeHtml (jsonGet row "trade_in_display")
      ++ "</td>\n                </tr>\n            "
  emptyMessage := "No se encontraron ventas para los filtros seleccionados."

/-- The merged filter object built by the staticfiles `fetchReport`:
defaults, then (when `options.useGlobalFilters` and the descriptor supports
a range) the non-empty global dates under their `paramMap`-mapped keys,
then `Object.assign` of the explicit `options.filters`. -/
def buildFilters (config : ReportConfig) (options : FetchOptions)
    (globalFilters : GlobalFilters) : List (String × JVal) :=
  let filters := config.defaultFilters
  let filters :=
    if options.useGlobalFilters && config.supportsRange then
      let filters :=
        if globalFilters.start == "" then filters
        else mapSet filters (jsOr (mapLookup config.paramMap "start") "start")
               (JVal.str globalFilters.start)
      if globalFilters.«end» == "" then filters
      else mapSet filters (jsOr (mapLookup config.paramMap "end") "end")
             (JVal.str globalFilters.«end»)
    else filters
  match options.filters with
  | some extra => objAssign filters extra
  | none => filters

/-- The serialization loop of the staticfiles `fetchReport`:
`Object.entries(filters).forEach(([key, value]) => { if (value)
params.append(key, value); })` — truthy values appended under their own
key, in object order. -/
def serializeParams (filters : List (String × JVal)) : List (String × String) :=
  filters.filterMap (fun p =>
    if p.2.truthy then some (p.1, jvalToString p.2) else none)

/-- `URLSearchParams.set(name, value)`: replaces the value of an existing
parameter in place, otherwise appends (the parameter lists built here never
contain duplicate names). -/
def paramsSet (ps : List (String × String)) (name value : String) :
    List (String × String) :=
  if ps.any (fun p => p.1 == name) then
    ps.map (fun p => if p.1 == name then (name, value) else p)
  else ps ++ [(name, value)]

/-- The merged filter object built by the static variant's `fetchReport`:
identical to the staticfiles merge except that the global dates are stored
under the literal keys `start` and `end` (mapping happens later, at
serialization). -/
def staticBuildFilters (config : ReportConfig) (options : FetchOptions)
    (globalFilters : GlobalFilters) : List (String × JVal) :=
  let filters := config.defaultFilters
  let filters :=
    if options.useGlobalFilters && config.supportsRange then
      let filters :=
        if globalFilters.start == "" then filters
        else mapSet filters "start" (JVal.str globalFilters.start)
      if globalFilters.«end» == "" then filters
      else mapSet filters "end" (JVal.str globalFilters.«end»)
    else filters
  match options.filters with
  | some extra => objAssign filters extra
  | none => filters

/-- The serialization loop of the static variant's `fetchReport`: skip
`null`/`undefined`/empty values, then `params.set(map[key] || key, value)`. -/
def staticSerializeParams (paramMap : List (String × String))
    (filters : List (String × JVal)) : List (String × String) :=
  filters.foldl (fun ps p =>
    if isEmptyVal p.2 then ps
    else paramsSet ps (jsOr (mapLookup paramMap p.1) p.1) (jvalToString p.2)) []

/-- Query-string rendering of the built parameter list (percent-encoding of
reserved characters not modelled; the claims are stated over the list). -/
def queryToString (ps : List (String × String)) : String :=
  String.intercalate "&" (ps.map (fun p => p.1 ++ "=" ++ p.2))

/-- The mutable state owned by `ReportDashboard` (staticfiles variant):
the response cache, the in-flight promise registry (`loadingPromises`,
promises named by identifiers), the global date range, and the
`dataset.loaded` marker of every discovered card element.  `nextPromiseId`
names the next promise created; `networkCalls` counts issued `fetch` calls. -/
structure DashState where
  cache : List (String × Json)
  loadingPromises : List (String × Nat)
  globalFilters : GlobalFilters
  cardsLoaded : List Bool
  nextPromiseId : Nat
  networkCalls : Nat

/-- What a `fetchReport` call returns to its caller. -/
inductive FetchResult where
  | rejectedUnknown (type : String)
  | resolvedCached (payload : Json)
  | joined (promiseId : Nat)
  | started (promiseId : Nat)

/-- The synchronous body of the staticfiles `fetchReport`, in source order:
unknown type rejects; a cached payload resolves immediately; an in-flight
promise for the same cache key is returned as-is; otherwise a new network
request is issued, its promise registered under the key. -/
def fetchReportStep (cfgs : List (String × ReportConfig)) (st : DashState)
    (type : String) (options : FetchOptions) : FetchResult × DashState :=
  match mapLookup cfgs type with
  | none => (.rejectedUnknown type, st)
  | some _config =>
    let cacheKey := generateCacheKey type options st.globalFilters
    match mapLookup st.cache cacheKey with
    | some payload => (.resolvedCached payload, st)
    | none =>
      match mapLookup st.loadingPromises cacheKey with
      | some pid => (.joined pid, st)
      | none =>
        let pid := st.nextPromiseId
        (.started pid,
         { st with
            loadingPromises := mapSet st.loadingPromises cacheKey pid
            nextPromiseId := st.nextPromiseId + 1
            networkCalls := st.networkCalls + 1 })

/-- How the single network request behind an in-flight promise settles. -/
inductive NetOutcome where
  | success (payload : Json)
  | httpError (status : Nat) (statusText : String)
  | aborted
  | parseError (msg : String)
  | netError (name msg : String)

/-- Whether the promise chain resolved with a payload. -/
def NetOutcome.isSuccess : NetOutcome → Bool
  | .success _ => true
  | _ => false

/-- Effect of the staticfiles promise chain on the dashboard state once the
request settles: the second `.then` caches the payload on success, and the
`.finally` removes the in-flight entry on every outcome.  The two
continuations run back to back on the microtask queue, so no other
`fetchReport` call can observe the state between them. -/
def settlePromise (st : DashState) (cacheKey : String) (outcome : NetOutcome) :
    DashState :=
  let st :=
    match outcome with
    | .success payload => { st with cache := mapSet st.cache cacheKey payload }
    | _ => st
  { st with loadingPromises := mapErase st.loadingPromises cacheKey }

/-- `ReportDashboard.clearCache` (staticfiles variant): empty the cache and
the in-flight registry and delete `dataset.loaded` from every card. -/
def clearCache (st : DashState) : DashState :=
  { st with
      cache := []
      loadingPromises := []
      cardsLoaded := st.cardsLoaded.map (fun _ => false) }

/-- A JS `Error` value as observed by a rejection handler. -/
structure JsError where
  name : String
  message : String
deriving DecidableEq, Repr

/-- How the `fetch(url, ...)` promise itself settles: a response carrying
an `ok` flag, a status, a status text and a body whose JSON parse may fail,
or a rejection (an `AbortError` when the 30-second timer fired `abort()`). -/
inductive FetchEvent where
  | response (ok : Bool) (status : Nat) (statusText : String)
      (jsonBody : Except String Json)
  | rejected (error : JsError)

/-- The timer armed on every new request:
`setTimeout(() => controller.abort(), 30000)`. -/
def timeoutMs : Nat := 30000

/-- The first `.then` of the staticfiles chain: a non-`ok` response throws
`` Error(`HTTP ${status}: ${statusText}`) ``, otherwise `response.json()`
either yields the payload or throws a `SyntaxError`. -/
def thenStage : FetchEvent → Except JsError Json
  | .response ok status statusText jsonBody =>
      if ok then
        match jsonBody with
        | .ok payload => .ok payload
        | .error m => .error ⟨"SyntaxError", m⟩
      else .error ⟨"Error", "HTTP " ++ toString status ++ ": " ++ statusText⟩
  | .rejected e => .error e

/-- The `.catch` of the staticfiles chain: an `AbortError` is replaced by
`Error('La petición tomó demasiado tiempo')`; everything else is rethrown. -/
def catchStage : Except JsError Json → Except JsError Json
  | .ok payload => .ok payload
  | .error e =>
      if e.name == "AbortError" then
        .error ⟨"Error", "La petición tomó demasiado tiempo"⟩
      else .error e

/-- The settled value of the promise `fetchReport` hands out, as a function
of how the underlying network request settled. -/
def fetchChainResult (ev : FetchEvent) : Except JsError Json :=
  catchStage (thenStage ev)

/-- The per-modal runtime state of `ReportModal`.  `loadedOnce` starts
falsy (the constructor never assigns it) and `lastFilters` starts `{}`. -/
structure ModalState where
  isOpen : Bool
  loadedOnce : Bool
  loading : Bool
  lastFilters : List (String × JVal)
deriving DecidableEq, Repr

/-- The freshly constructed modal. -/
def ModalState.initial : ModalState where
  isOpen := false
  loadedOnce := false
  loading := false
  lastFilters := []

/-- `ReportModal.open`: a no-op when already open; otherwise the modal
becomes visible/active and `runReport` is invoked exactly when
`this.loadedOnce` is falsy.  The returned flag records whether a run was
triggered automatically. -/
def openStep (st : ModalState) : ModalState × Bool :=
  if st.isOpen then (st, false)
  else
    let st := { st with isOpen := true }
    (st, !st.loadedOnce)

/-- `ReportModal.close`: a no-op when already closed. -/
def closeStep (st : ModalState) : ModalState :=
  if st.isOpen then { st with isOpen := false } else st

/-- The synchronous prefix of `ReportModal.runReport`: mark loading and
snapshot the collected filters into `lastFilters`. -/
def runStart (st : ModalState) (filters : List (String × JVal)) : ModalState :=
  { st with loading := true, lastFilters := filters }

/-- The settle handlers of `runReport`: on success the payload is rendered
and `this.loadedOnce = true`; on failure only a toast is shown; the
`.finally` always clears the loading flag. -/
def runSettle (st : ModalState) (succeeded : Bool) : ModalState :=
  let st := if succeeded then { st with loadedOnce := true } else st
  { st with loading := false }

/-- The DOM surroundings `renderTable` reads: whether the modal declares a
`[data-table-body]`, the `thead th` cell count of its closest `table` (when
one exists), and whether a `[data-empty]` node is present. -/
structure TableDom where
  hasTableBody : Bool
  closestTableHeaderCells : Option Nat
  hasEmptyNode : Bool
deriving DecidableEq, Repr

/-- `ReportModal.getTableColumnCount`: `1` without a closest table,
otherwise `headerCells.length || 1`. -/
def getTableColumnCount (closestTableHeaderCells : Option Nat) : Nat :=
  match closestTableHeaderCells with
  | none => 1
  | some headerCells => if headerCells == 0 then 1 else headerCells

/-- The empty-state markup `renderTable` assigns to `tableBody.innerHTML`
when there are no rows (whitespace as in the source template literal). -/
def emptyStateHtml (columnCount : Nat) (message : String) : String :=
  "\n                    <tr>\n                        <td colspan=\""
    ++ toString columnCount
    ++ "\" class=\"report-empty-state\">"
    ++ escapeHtml (Json.jstr message)
    ++ "</td>\n                    </tr>\n                "

/-- What `renderTable` wrote: the new `innerHTML` of the table body (absent
when the modal has no table body and the method returns early) and the new
`hidden` flag of the empty-state node (absent when that node is missing). -/
structure RenderTableResult where
  innerHTML : Option String
  emptyHidden : Option Bool
deriving DecidableEq, Repr

/-- `ReportModal.renderTable`: extract the rows; a non-empty list renders
through `renderRow` joined by `""`; otherwise a single empty-state row is
substituted, spanning `getTableColumnCount()` columns and carrying
`config.emptyMessage || "Sin resultados disponibles."` HTML-escaped. -/
def renderTable (config : ReportConfig) (dom : TableDom) (data : Json) :
    RenderTableResult :=
  if dom.hasTableBody then
    let rows := config.rowsExtractor data
    if rows.length != 0 then
      ⟨some (String.join (rows.map config.renderRow)),
       if dom.hasEmptyNode then some true else none⟩
    else
      let columnCount := getTableColumnCount dom.closestTableHeaderCells
      let message :=
        if config.emptyMessage == "" then "Sin resultados disponibles."
        else config.emptyMessage
      ⟨some (emptyStateHtml columnCount message),
       if dom.hasEmptyNode then some false else none⟩
  else ⟨none, none⟩

/-- A cache key as derived for a card-summary load of `total-sales` with
the initial (empty) global range. -/
def demoKey : String := generateCacheKey "total-sales" ⟨none, true⟩ ⟨"", ""⟩

/-- A dashboard state in which the `demoKey` request is in flight as
promise `0`. -/
def demoState : DashState where
  cache := []
  loadingPromises := [(demoKey, 0)]
  globalFilters := ⟨"", ""⟩
  cardsLoaded := [true]
  nextPromiseId := 1
  networkCalls := 1

/-- A sample payload of the `total-sales` endpoint. -/
def demoPayload : Json := Json.jobj [("total_sales_display", Json.jstr "RD$1,000.00")]

/-- A dashboard state in which `demoKey` already resolved and was cached. -/
def demoCachedState : DashState where
  cache := [(demoKey, demoPayload)]
  loadingPromises := []
  globalFilters := ⟨"", ""⟩
  cardsLoaded := [true]
  nextPromiseId := 1
  networkCalls := 1

/-! ### Helper lemmas about the embedded operations -/

/-- Characterization of the staticfiles serialization loop: a pair is
emitted exactly for a truthy source entry, under its own key. -/
theorem mem_serializeParams {filters : List (String × JVal)} {p : String × String} :
    p ∈ serializeParams filters ↔
      ∃ q ∈ filters, q.2.truthy = true ∧ p = (q.1, jvalToString q.2) := by
  simp only [serializeParams, List.mem_filterMap]
  constructor
  · rintro ⟨q, hq, hf⟩
    by_cases ht : q.2.truthy
    · exact ⟨q, hq, ht, by simp [ht] at hf; exact hf.symm⟩
    · simp [ht] at hf
  · rintro ⟨q, hq, ht, hp⟩
    exact ⟨q, hq, by simp [ht, hp]⟩

/-- Every element of `paramsSet ps name value` is the new pair or one of
the untouched old ones. -/
theorem mem_paramsSet {ps : List (String × String)} {name value : String}
    {p : String × String} (h : p ∈ paramsSet ps name value) :
    p = (name, value) ∨ p ∈ ps := by
  unfold paramsSet at h
  split at h
  · rcases List.mem_map.mp h with ⟨q, hq, hqe⟩
    by_cases he : q.1 = name
    · left
      simp [he] at hqe
      exact hqe.symm
    · right
      simp [he] at hqe
      exact hqe ▸ hq
  · rcases List.mem_append.mp h with h' | h'
    · exact Or.inr h'
    · exact Or.inl (by simpa using h')

/-- `paramsSet` makes its parameter name present. -/
theorem name_mem_paramsSet (ps : List (String × String)) (name value : String) :
    name ∈ (paramsSet ps name value).map Prod.fst := by
  unfold paramsSet
  split
  · rename_i hany
    rcases List.any_eq_true.mp hany with ⟨q, hq, hqn⟩
    have hq1 : q.1 = name := by simpa using hqn
    exact List.mem_map.mpr ⟨(name, value), List.mem_map.mpr ⟨q, hq, by simp [hq1]⟩, rfl⟩
  · simp

/-- `paramsSet` never drops a parameter name already present. -/
theorem names_paramsSet_mono {ps : List (String × String)} {m : String}
    (h : m ∈ ps.map Prod.fst) (name value : String) :
    m ∈ (paramsSet ps name value).map Prod.fst := by
  unfold paramsSet
  split
  · rcases List.mem_map.mp h with ⟨q, hq, hqm⟩
    by_cases he : q.1 = name
    · refine List.mem_map.mpr ⟨(name, value), List.mem_map.mpr ⟨q, hq, by simp [he]⟩, ?_⟩
      simp [← hqm, he]
    · exact List.mem_map.mpr ⟨q, List.mem_map.mpr ⟨q, hq, by simp [he]⟩, hqm⟩
  · simp [h]

/-- Origin of the pairs produced by the static variant's serialization
fold: each comes from a surviving source entry, mapped through `paramMap`
with identity fallback. -/
theorem mem_staticFoldl (pm : List (String × String)) :
    ∀ (l : List (String × JVal)) (acc : List (String × String)) (p : String × String),
      p ∈ l.foldl (fun ps q =>
        if isEmptyVal q.2 then ps
        else paramsSet ps (jsOr (mapLookup pm q.1) q.1) (jvalToString q.2)) acc →
      p ∈ acc ∨ ∃ q ∈ l, isEmptyVal q.2 = false ∧
        p = (jsOr (mapLookup pm q.1) q.1, jvalToString q.2) := by
  intro l
  induction l with
  | nil => intro acc p h; exact Or.inl h
  | cons q0 rest ih =>
    intro acc p h
    simp only [List.foldl_cons] at h
    rcases ih _ p h with h' | ⟨q, hq, hqe, hqp⟩
    · by_cases he : isEmptyVal q0.2
      · simp [he] at h'
        exact Or.inl h'
      · simp [he] at h'
        rcases mem_paramsSet h' with h2 | h2
        · exact Or.inr ⟨q0, List.mem_cons_self _ _, by simpa using he, h2⟩
        · exact Or.inl h2
    · exact Or.inr ⟨q, List.mem_cons_of_mem _ hq, hqe, hqp⟩

/-- The serialization fold never loses a parameter name already placed. -/
theorem names_staticFoldl_mono (pm : List (String × String)) :
    ∀ (l : List (String × JVal)) (acc : List (String × String)) (m : String),
      m ∈ acc.map Prod.fst →
      m ∈ (l.foldl (fun ps q =>
        if isEmptyVal q.2 then ps
        else paramsSet ps (jsOr (mapLookup pm q.1) q.1) (jvalToString q.2)) acc).map Prod.fst := by
  intro l
  induction l with
  | nil => intro acc m h; exact h
  | cons q0 rest ih =>
    intro acc m h
    simp only [List.foldl_cons]
    by_cases he : isEmptyVal q0.2
    · simpa [he] using ih _ m h
    · simpa [he] using ih _ m (names_paramsSet_mono h _ _)

/-- Completeness of the static variant's serialization fold: every
surviving source key ends up present under its mapped parameter name. -/
theorem name_mem_staticFoldl (pm : List (String × String)) :
    ∀ (l : List (String × JVal)) (acc : List (String × String)) (q : String × JVal),
      q ∈ l → isEmptyVal q.2 = false →
      jsOr (mapLookup pm q.1) q.1 ∈ (l.foldl (fun ps q =>
        if isEmptyVal q.2 then ps
        else paramsSet ps (jsOr (mapLookup pm q.1) q.1) (jvalToString q.2)) acc).map Prod.fst := by
  intro l
  induction l with
  | nil => intro acc q h; simp at h
  | cons q0 rest ih =>
    intro acc q hq hqe
    simp only [List.foldl_cons]
    rcases List.mem_cons.mp hq with rfl | hq'
    · rw [if_neg (by simp [hqe])]
      exact names_staticFoldl_mono pm rest _ _ (name_mem_paramsSet _ _ _)
    · exact ih _ q hq' hqe

/-- Reading back the key just assigned. -/
theorem mapLookup_mapSet_self {α : Type} (m : List (String × α)) (k : String) (v : α) :
    mapLookup (mapSet m k v) k = some v := by
  induction m with
  | nil => simp [mapSet, mapLookup]
  | cons p rest ih =>
    by_cases h : p.1 == k
    · simp [mapSet, mapLookup, h]
    · simp only [mapSet, h]
      simpa [mapLookup, List.find?, h] using ih

/-- An erased key can no longer be looked up. -/
theorem mapLookup_mapErase {α : Type} (m : List (String × α)) (k : String) :
    mapLookup (mapErase m k) k = none := by
  induction m with
  | nil => rfl
  | cons p rest ih =>
    by_cases h : p.1 == k
    · simp only [mapErase, List.filter_cons, h, Bool.not_true]
      exact ih
    · simp only [mapErase, mapLookup, List.filter_cons, h, Bool.not_false, List.find?]
      exact ih

/-! ### Claim theorems -/

/-- C1, counterexample: in the staticfiles variant's `fetchReport`, an
explicit (modal-collected) filter `start` for `total-sales` is serialized
under its own key `start`, although the descriptor's `paramMap` maps
`start` to `fecha_inicio`; the mapped name never appears in the query.
This refutes the claim that a key present in `paramMap` is serialized
under its mapped name for explicit filters in every `fetchReport`. -/
theorem staticfiles_explicit_filter_not_mapped :
    serializeParams (buildFilters totalSales
        ⟨some [("start", JVal.str "2024-01-01")], false⟩ ⟨"", ""⟩)
      = [("start", "2024-01-01")]
    ∧ mapLookup totalSales.paramMap "start" = some "fecha_inicio"
    ∧ "fecha_inicio" ∉ (serializeParams (buildFilters totalSales
        ⟨some [("start", JVal.str "2024-01-01")], false⟩ ⟨"", ""⟩)).map Prod.fst := by
  refine ⟨rfl, rfl, by decide⟩

/-- C1, amended: in the static variant's `fetchReport`, every serialized
parameter originates from a surviving filter entry under its
`paramMap`-mapped name (own name when unmapped), and every surviving key's
mapped name is serialized — this holds uniformly for the merged object, so
for default, global and explicit filters alike.  In the staticfiles
variant, surviving keys are serialized under their own names without
`paramMap` translation; only the global date-range values are placed under
pre-mapped keys during the merge step. -/
theorem fetchReport_param_mapping :
    (∀ (pm : List (String × String)) (filters : List (String × JVal)),
       (∀ p ∈ staticSerializeParams pm filters,
          ∃ q ∈ filters, isEmptyVal q.2 = false ∧
            p = (jsOr (mapLookup pm q.1) q.1, jvalToString q.2))
       ∧ (∀ q ∈ filters, isEmptyVal q.2 = false →
            jsOr (mapLookup pm q.1) q.1 ∈ (staticSerializeParams pm filters).map Prod.fst))
    ∧ (∀ (filters : List (String × JVal)) (p : String × String),
         p ∈ serializeParams filters →
         ∃ q ∈ filters, q.2.truthy = true ∧ p = (q.1, jvalToString q.2))
    ∧ (∀ (config : ReportConfig) (g : GlobalFilters),
         config.supportsRange = true → g.start ≠ "" → g.«end» = "" →
         mapLookup (buildFilters config ⟨none, true⟩ g)
             (jsOr (mapLookup config.paramMap "start") "start")
           = some (JVal.str g.start)) := by
  refine ⟨?_, ?_, ?_⟩
  · intro pm filters
    constructor
    · intro p hp
      rcases mem_staticFoldl pm filters [] p hp with h | h
      · simp at h
      · exact h
    · intro q hq hqe
      exact name_mem_staticFoldl pm filters [] q hq hqe
  · intro filters p hp
    exact mem_serializeParams.mp hp
  · intro config g hr hs he
    have hs' : (g.start == "") = false := by simp [hs]
    have he' : (g.«end» == "") = true := by simp [he]
    simp only [buildFilters, hr, hs', he', Bool.and_true, Bool.true_and,
      if_true, if_false, ite_true, ite_false]
    exact mapLookup_mapSet_self _ _ _

/-- C1, witness: the static variant serializes an explicit `start` filter
of `total-sales` under the mapped name (`fecha_inicio`). -/
theorem fetchReport_param_mapping_witness :
    jsOr (mapLookup totalSales.paramMap "start") "start"
      ∈ (staticSerializeParams totalSales.paramMap
          [("start", JVal.str "2024-01-01")]).map Prod.fst :=
  (fetchReport_param_mapping.1 totalSales.paramMap
    [("start", JVal.str "2024-01-01")]).2
    ("start", JVal.str "2024-01-01") (by decide) (by decide)

/-- C2: when `fetchReport` runs while the same cache key is already in
flight (and not yet cached), it returns the very same registered promise
and leaves the state unchanged — in particular no new network call is
issued (`networkCalls` is part of the unchanged state), so all concurrent
callers hold one promise and settle identically with it. -/
theorem fetchReport_coalesces (cfgs : List (String × ReportConfig)) (st : DashState)
    (type : String) (options : FetchOptions) (config : ReportConfig) (pid : Nat)
    (hc : mapLookup cfgs type = some config)
    (hcache : mapLookup st.cache (generateCacheKey type options st.globalFilters) = none)
    (hpending : mapLookup st.loadingPromises
      (generateCacheKey type options st.globalFilters) = some pid) :
    fetchReportStep cfgs st type options = (FetchResult.joined pid, st) := by
  simp [fetchReportStep, hc, hcache, hpending]

/-- C2, witness: a second card load of `total-sales` while promise `0` is
in flight joins that promise and changes nothing. -/
theorem fetchReport_coalesces_witness :
    fetchReportStep [("total-sales", totalSales)] demoState "total-sales" ⟨none, true⟩
      = (FetchResult.joined 0, demoState) :=
  fetchReport_coalesces _ _ _ _ totalSales 0 rfl rfl rfl

/-- C3: a `fetchReport` whose cache key is already cached resolves
immediately with the cached payload and leaves the state unchanged (so no
network call is issued); and `clearCache` empties the cache and the
in-flight registry and clears the loaded marker of every card. -/
theorem fetchReport_cache_hit_and_clearCache :
    (∀ (cfgs : List (String × ReportConfig)) (st : DashState) (type : String)
       (options : FetchOptions) (config : ReportConfig) (payload : Json),
       mapLookup cfgs type = some config →
       mapLookup st.cache (generateCacheKey type options st.globalFilters) = some payload →
       fetchReportStep cfgs st type options = (FetchResult.resolvedCached payload, st))
    ∧ (∀ st : DashState, (clearCache st).cache = [] ∧ (clearCache st).loadingPromises = []
        ∧ ∀ b ∈ (clearCache st).cardsLoaded, b = false) := by
  constructor
  · intro cfgs st type options config payload hc hcache
    simp [fetchReportStep, hc, hcache]
  · intro st
    refine ⟨rfl, rfl, ?_⟩
    intro b hb
    rcases List.mem_map.mp hb with ⟨_, _, rfl⟩
    rfl

/-- C3, witness: a repeat card load of `total-sales` after the first one
resolved replays the cached payload without touching the state. -/
theorem fetchReport_cache_hit_witness :
    fetchReportStep [("total-sales", totalSales)] demoCachedState "total-sales" ⟨none, true⟩
      = (FetchResult.resolvedCached demoPayload, demoCachedState) :=
  fetchReport_cache_hit_and_clearCache.1 _ _ _ _ totalSales demoPayload rfl rfl

/-- C4, counterexample: two logically identical filter objects — the same
key-value pairs inserted in the two possible orders — receive different
cache keys from `generateCacheKey`, because `JSON.stringify` serializes
properties in insertion order.  This refutes stable-key-ordering
determinism as claimed. -/
theorem generateCacheKey_order_sensitive :
    ([("a", JVal.str "1"), ("b", JVal.str "2")] : List (String × JVal)).Perm
        [("b", JVal.str "2"), ("a", JVal.str "1")]
    ∧ generateCacheKey "total-sales"
        ⟨some [("a", JVal.str "1"), ("b", JVal.str "2")], false⟩ ⟨"", ""⟩
      ≠ generateCacheKey "total-sales"
        ⟨some [("b", JVal.str "2"), ("a", JVal.str "1")], false⟩ ⟨"", ""⟩ := by
  decide

/-- C4, amended: `generateCacheKey` is a deterministic function of the
type, the filter source, and the insertion-ordered JSON serializations:
two explicit filter objects collide to the same cache key exactly when
their `JSON.stringify` serializations coincide — hence identical
insertion-ordered entry sequences always collide, while logically
identical mappings inserted in different orders may not. -/
theorem generateCacheKey_deterministic (t : String) (u : Bool)
    (f f' : List (String × JVal)) (g : GlobalFilters) :
    generateCacheKey t ⟨some f, u⟩ g = generateCacheKey t ⟨some f', u⟩ g ↔
      jsonStringify f = jsonStringify f' := by
  constructor
  · intro h
    have hd := congrArg String.data h
    simp only [generateCacheKey, String.data_append, List.append_assoc,
      show ("-" : String).data = ['-'] from rfl,
      List.cons_append, List.nil_append] at hd
    have h1 := List.append_cancel_left hd
    simp only [List.cons.injEq, true_and] at h1
    have h2 := List.append_cancel_left h1
    simp only [List.cons.injEq, true_and] at h2
    exact String.ext (List.append_cancel_right h2)
  · intro h
    simp [generateCacheKey, h]

/-- C4, witness: equal serializations give equal cache keys. -/
theorem generateCacheKey_deterministic_witness :
    generateCacheKey "total-sales" ⟨some [("start", JVal.str "2024-01-01")], false⟩ ⟨"", ""⟩
      = generateCacheKey "total-sales" ⟨some [("start", JVal.str "2024-01-01")], false⟩ ⟨"", ""⟩ :=
  (generateCacheKey_deterministic "total-sales" false _ _ ⟨"", ""⟩).mpr rfl

/-- C5: no empty-valued filter entry is ever serialized.  In the
staticfiles variant a key carrying an empty-string, `null` or `undefined`
value never appears among the query parameters; in the static variant the
same holds for the key's mapped parameter name.  (The key-uniqueness
hypotheses hold for every JS object by construction.) -/
theorem empty_values_never_serialized :
    (∀ (filters : List (String × JVal)) (k : String) (v : JVal),
       (filters.map Prod.fst).Nodup → (k, v) ∈ filters → v.truthy = false →
       k ∉ (serializeParams filters).map Prod.fst)
    ∧ (∀ (pm : List (String × String)) (filters : List (String × JVal)) (k : String) (v : JVal),
       (filters.map (fun q => jsOr (mapLookup pm q.1) q.1)).Nodup →
       (k, v) ∈ filters → isEmptyVal v = true →
       jsOr (mapLookup pm k) k ∉ (staticSerializeParams pm filters).map Prod.fst) := by
  constructor
  · intro filters k v hnd hkv hempty hmem
    rcases List.mem_map.mp hmem with ⟨p, hp, hpk⟩
    rcases mem_serializeParams.mp hp with ⟨q, hq, ht, hpq⟩
    have hq1 : q.1 = k := by rw [hpq] at hpk; exact hpk
    have : q = (k, v) :=
      List.inj_on_of_nodup_map hnd hq hkv (by simpa using hq1)
    rw [this] at ht
    simp only [ht] at hempty
    exact absurd hempty (by simp)
  · intro pm filters k v hnd hkv hempty hmem
    rcases List.mem_map.mp hmem with ⟨p, hp, hpk⟩
    rcases (by
      rcases mem_staticFoldl pm filters [] p hp with h | h
      · simp at h
      · exact h : ∃ q ∈ filters, isEmptyVal q.2 = false ∧
          p = (jsOr (mapLookup pm q.1) q.1, jvalToString q.2)) with ⟨q, hq, hqe, hqp⟩
    have hq1 : jsOr (mapLookup pm q.1) q.1 = jsOr (mapLookup pm k) k := by
      rw [hqp] at hpk; exact hpk
    have : q = (k, v) := List.inj_on_of_nodup_map hnd hq hkv (by simpa using hq1)
    rw [this] at hqe
    simp only at hqe
    rw [hempty] at hqe
    exact absurd hqe (by simp)

/-- C5, witness: an empty `start` value is dropped from the query. -/
theorem empty_values_never_serialized_witness :
    "start" ∉ (serializeParams [("start", JVal.str ""), ("q", JVal.str "x")]).map Prod.fst :=
  empty_values_never_serialized.1 [("start", JVal.str ""), ("q", JVal.str "x")]
    "start" (JVal.str "") (by decide) (by decide) (by decide)

/-- C6: the abort timer fires after the fixed 30000 ms; an aborted request
settles with the distinct timeout error `La petición tomó demasiado
tiempo`, while an HTTP 500 failure settles with a message carrying the
status code — and no status text makes the two messages coincide. -/
theorem timeout_rejection_distinct :
    timeoutMs = 30000
    ∧ (∀ m : String, fetchChainResult (FetchEvent.rejected ⟨"AbortError", m⟩)
        = Except.error ⟨"Error", "La petición tomó demasiado tiempo"⟩)
    ∧ (∀ (statusText : String) (body : Except String Json),
        fetchChainResult (FetchEvent.response false 500 statusText body)
          = Except.error ⟨"Error", "HTTP 500: " ++ statusText⟩)
    ∧ (∀ statusText : String,
        "La petición tomó demasiado tiempo" ≠ "HTTP 500: " ++ statusText) := by
  refine ⟨rfl, fun m => rfl, fun st body => rfl, ?_⟩
  intro st h
  have hd := congrArg String.data h
  rw [String.data_append] at hd
  simp [show ("La petición tomó demasiado tiempo" : String).data
      = ['L','a',' ','p','e','t','i','c','i','ó','n',' ','t','o','m','ó',' ',
         'd','e','m','a','s','i','a','d','o',' ','t','i','e','m','p','o'] from rfl,
    show ("HTTP 500: " : String).data = ['H','T','T','P',' ','5','0','0',':',' '] from rfl] at hd

/-- C6, witness: the timeout message differs from a concrete 500 message. -/
theorem timeout_rejection_distinct_witness :
    "La petición tomó demasiado tiempo" ≠ "HTTP 500: Internal Server Error" :=
  timeout_rejection_distinct.2.2.2 "Internal Server Error"

/-- C7: once the promise registered for a cache key settles, the in-flight
registry no longer holds that key, whatever the outcome; a failed request
leaves the cache untouched, and a success stores exactly the payload under
the key — so neither structure is ever corrupted and no later call can be
handed a stale promise. -/
theorem inflight_removed_on_settle :
    ∀ (st : DashState) (key : String) (outcome : NetOutcome),
      mapLookup (settlePromise st key outcome).loadingPromises key = none
      ∧ (outcome.isSuccess = false → (settlePromise st key outcome).cache = st.cache)
      ∧ (∀ payload : Json, outcome = NetOutcome.success payload →
          (settlePromise st key outcome).cache = mapSet st.cache key payload) := by
  intro st key outcome
  refine ⟨?_, ?_, ?_⟩
  · cases outcome <;> exact mapLookup_mapErase _ _
  · intro hfail
    cases outcome <;> simp_all [settlePromise, NetOutcome.isSuccess]
  · intro payload hp
    subst hp
    rfl

/-- C7, witness: an HTTP 500 settle removes the in-flight entry and leaves
the cache as it was. -/
theorem inflight_removed_on_settle_witness :
    (settlePromise demoState demoKey (NetOutcome.httpError 500 "Internal Server Error")).cache
        = demoState.cache
    ∧ mapLookup (settlePromise demoState demoKey
        (NetOutcome.httpError 500 "Internal Server Error")).loadingPromises demoKey = none :=
  ⟨(inflight_removed_on_settle demoState demoKey _).2.1 rfl,
   (inflight_removed_on_settle demoState demoKey _).1⟩

/-- C8, counterexample: `loadedOnce` is only set when a run succeeds, so
after a first open whose automatic run fails, closing and reopening the
modal triggers a second automatic run — refuting the claim that the
automatic run happens only on the very first open. -/
theorem open_autoruns_after_failed_first_run :
    (openStep ModalState.initial).2 = true
    ∧ (openStep (closeStep (runSettle
        (runStart (openStep ModalState.initial).1 []) false))).2 = true :=
  ⟨rfl, rfl⟩

/-- C8, amended: `open()` is a no-op while open; an open of a closed modal
auto-runs exactly when no run has yet completed successfully
(`loadedOnce` still falsy); a settling run sets `loadedOnce` exactly on
success; and closing preserves `loadedOnce` — so after the first
successful run, subsequent opens reuse the rendered content. -/
theorem open_autorun_guard (st : ModalState) :
    (st.isOpen = true → openStep st = (st, false))
    ∧ (st.isOpen = false → (openStep st).2 = !st.loadedOnce)
    ∧ (∀ (filters : List (String × JVal)) (succeeded : Bool),
        (runSettle (runStart st filters) succeeded).loadedOnce
          = (st.loadedOnce || succeeded))
    ∧ (closeStep st).loadedOnce = st.loadedOnce := by
  obtain ⟨o, l, ld, lf⟩ := st
  refine ⟨?_, ?_, ?_, ?_⟩
  · intro h; subst h; rfl
  · intro h; subst h; rfl
  · intro filters succeeded
    cases succeeded <;> cases l <;> rfl
  · cases o <;> rfl

/-- C8, witness: the very first open of a fresh modal auto-runs. -/
theorem open_autorun_guard_witness :
    (openStep ModalState.initial).2 = !ModalState.initial.loadedOnce :=
  (open_autorun_guard ModalState.initial).2.1 rfl

/-- C9: when the descriptor's `rowsExtractor` yields zero rows,
`renderTable` replaces the table body with the single empty-state row
`emptyStateHtml` — one `<tr>` holding one `<td>` whose `colspan` is the
actual column count and whose text is the HTML-escaped configured message
— and `getTableColumnCount` is the header-cell count, `1` when there is
no table or no header cells. -/
theorem renderTable_empty_state (config : ReportConfig) (dom : TableDom) (data : Json)
    (hbody : dom.hasTableBody = true)
    (hrows : config.rowsExtractor data = [])
    (hmsg : config.emptyMessage ≠ "") :
    renderTable config dom data =
      ⟨some (emptyStateHtml (getTableColumnCount dom.closestTableHeaderCells)
          config.emptyMessage),
       if dom.hasEmptyNode then some false else none⟩
    ∧ getTableColumnCount none = 1
    ∧ getTableColumnCount (some 0) = 1
    ∧ (∀ n : Nat, n ≠ 0 → getTableColumnCount (some n) = n) := by
  refine ⟨?_, rfl, rfl, ?_⟩
  · have hmsg' : (config.emptyMessage == "") = false := by simp [hmsg]
    simp [renderTable, hbody, hrows, hmsg']
  · intro n hn
    simp [getTableColumnCount, hn]

/-- C9, witness: an empty `total-sales` payload renders the empty-state
row with the descriptor's message over the 11 header columns. -/
theorem renderTable_empty_state_witness :
    renderTable totalSales ⟨true, some 11, true⟩ (Json.jobj [("rows", Json.jarr [])])
      = ⟨some (emptyStateHtml 11 totalSales.emptyMessage), some false⟩ := by
  have h := (renderTable_empty_state totalSales ⟨true, some 11, true⟩
    (Json.jobj [("rows", Json.jarr [])]) rfl rfl (by decide)).1
  simpa using h

/-- C10: for the same report type and global state, the cache key of a
card-summary fetch (`useGlobalFilters` true, no explicit filters) is
always distinct from the key of a modal run (explicit collected filters,
`useGlobalFilters` absent), because the key embeds `global` versus
`custom` — so a card and its modal never share a cache slot or an
in-flight promise. -/
theorem card_modal_keys_distinct (type : String) (modalFilters : List (String × JVal))
    (g : GlobalFilters) :
    generateCacheKey type ⟨some modalFilters, false⟩ g
      ≠ generateCacheKey type ⟨none, true⟩ g := by
  intro h
  have hd := congrArg String.data h
  simp only [generateCacheKey, String.data_append, List.append_assoc,
    show ("-" : String).data = ['-'] from rfl,
    show ("custom" : String).data = ['c','u','s','t','o','m'] from rfl,
    show ("global" : String).data = ['g','l','o','b','a','l'] from rfl,
    List.cons_append, List.nil_append] at hd
  have h1 := List.append_cancel_left hd
  simp at h1

/-- C10, witness: concrete card and modal keys for `total-sales` differ
even when the modal collected exactly the global dates. -/
theorem card_modal_keys_distinct_witness :
    generateCacheKey "total-sales"
        ⟨some [("start", JVal.str "2024-01-01"), ("end", JVal.str "")], false⟩
        ⟨"2024-01-01", ""⟩
      ≠ generateCacheKey "total-sales" ⟨none, true⟩ ⟨"2024-01-01", ""⟩ :=
  card_modal_keys_distinct "total-sales" _ _

end Reportes
